import Mathlib

/-!
Shallow embedding of the marker-clustering and tour-sequencing core of the
research-focus-map application.  The embedded code lives in
`src/src/components/MapComponent.tsx`; the modular duplicate in
`src/src/components/Map/MapContainer.tsx` is structurally identical modulo
named configuration constants.  JavaScript numbers are modelled as exact
rationals (`ℚ`).  React `useState` semantics are modelled explicitly: an event
handler reads the state captured at render time and its queued writes are
applied in order, so each handler becomes a pure function `AppState → AppState`
of the pre-event state.
-/

/-- A located research record (`src/src/types/ResearchArea.ts`). -/
structure ResearchArea where
  name : String
  description : String
  latitude : ℚ
  longitude : ℚ
  category : String
  department : String
  term : String
  type : String
  mapFocus : String
  researcherName : String
  collaborator : String
  links : String
  geographicFocus : String
  deriving DecidableEq

/-- A marker cluster (`MapComponent.tsx` lines 17-23). -/
structure MarkerCluster where
  id : String
  longitude : ℚ
  latitude : ℚ
  areas : List ResearchArea
  isCluster : Bool
  deriving DecidableEq

/-- The facet filter state (`MapComponent.tsx` lines 6-10). -/
structure FilterState where
  departments : List String
  terms : List String
  types : List String
  deriving DecidableEq

/-- Zoom-dependent clustering distance (`MapComponent.tsx` lines 29-38,
nested inside `clusterMarkers` in the source). -/
def getClusterDistance (zoom : ℚ) : ℚ :=
  if zoom ≤ 3 then 2
  else if zoom ≤ 5 then 1
  else if zoom ≤ 6 then 1/10
  else if zoom ≤ 8 then 1/20
  else if zoom ≤ 10 then 1/50
  else if zoom ≤ 12 then 1/100
  else if zoom ≤ 14 then 1/200
  else 1/1000

/-- The proximity test of `clusterMarkers` (`MapComponent.tsx` lines 56-60):
`Math.sqrt(latDiff*latDiff + lngDiff*lngDiff) <= clusterDistance`.
Square roots do not exist in `ℚ`, so the comparison is embedded by the
equivalent condition `0 ≤ d ∧ Δlat² + Δlng² ≤ d²` (the equivalence over the
reals is proved in `withinDistance_iff_sqrt` below; `Math.abs` disappears
because squaring removes the sign). -/
def withinDistance (a b : ResearchArea) (d : ℚ) : Bool :=
  decide (0 ≤ d ∧
    (a.latitude - b.latitude) ^ 2 + (a.longitude - b.longitude) ^ 2 ≤ d ^ 2)

/-- The selected-area identity test of `clusterMarkers` (`MapComponent.tsx`
line 72): match by `name` and `researcherName`. -/
def matchesSelected (s a : ResearchArea) : Bool :=
  a.name == s.name && a.researcherName == s.researcherName

/-- The greedy clustering loop of `clusterMarkers` (`MapComponent.tsx`
lines 41-90).  The JavaScript `processed` index set is represented by removing
absorbed points from the list of remaining points: the seed of each pass is the
first unprocessed point in input order, its scan over all unprocessed points is
the filter over `rest`, and the recursion continues on the points the scan did
not absorb.  `fuel` makes the recursion structural; it is always called with
`fuel ≥` the length of the remaining list, so the `fuel = 0` branch is never
taken (see `clusterLoop_fuel_irrelevant`).  `n` is `clusters.length` at push
time and `selFound` is the `selectedClusterFound` flag. -/
def clusterLoop (d : ℚ) (sel : Option ResearchArea) :
    ℕ → List ResearchArea → ℕ → Bool → List MarkerCluster
  | _, [], _, _ => []
  | 0, _ :: _, _, _ => []
  | fuel + 1, area :: rest, n, selFound =>
    let nearbyRest := rest.filter (fun b => withinDistance area b d)
    let farRest := rest.filter (fun b => !(withinDistance area b d))
    let nearbyAreas := area :: nearbyRest
    let avgLng := (nearbyAreas.map (fun a => a.longitude)).sum / nearbyAreas.length
    let avgLat := (nearbyAreas.map (fun a => a.latitude)).sum / nearbyAreas.length
    let containsSelectedArea :=
      match sel with
      | some s => nearbyAreas.any (matchesSelected s)
      | none => false
    let isSel := containsSelectedArea && !selFound
    let clusterId := if isSel then "selected-cluster" else "cluster-" ++ toString n
    { id := clusterId, longitude := avgLng, latitude := avgLat,
      areas := nearbyAreas, isCluster := decide (1 < nearbyAreas.length) } ::
    clusterLoop d sel fuel farRest (n + 1) (selFound || isSel)

/-- `clusterMarkers` after the cluster distance has been computed from the zoom
level (`MapComponent.tsx` line 40 fixes `clusterDistance`, lines 41-90 run the
loop). -/
def clusterAtDistance (areas : List ResearchArea) (d : ℚ)
    (sel : Option ResearchArea) : List MarkerCluster :=
  clusterLoop d sel areas.length areas 0 false

/-- `clusterMarkers(areas, zoom, selectedArea)` (`MapComponent.tsx`
lines 26-91). -/
def clusterMarkers (areas : List ResearchArea) (zoom : ℚ)
    (sel : Option ResearchArea) : List MarkerCluster :=
  clusterAtDistance areas (getClusterDistance zoom) sel

/-- The fixed academic-term lexicon, most recent first (`MapComponent.tsx`
lines 197-201). -/
def termOrder : List String :=
  ["Summer 25", "Spring 25", "Fall 24", "Summer 24", "Spring 24", "Fall 23",
   "Summer 23", "Spring 23", "Fall 22", "Summer 22", "Spring 22", "Fall 21",
   "Summer 21", "Spring 21", "Fall 20", "Summer 20", "Spring 20"]

/-- `termOrder.indexOf(term)`: position in the lexicon, `-1` when absent. -/
def termIndex (t : String) : Int :=
  match termOrder.indexOf? t with
  | some n => (n : Int)
  | none => -1

/-- `a.localeCompare(b)` modelled as code-point comparison (the terms involved
are plain ASCII strings, where locale order and code-point order agree). -/
def localeCompareInt (x y : String) : Int :=
  if x < y then -1 else if x = y then 0 else 1

/-- The tour comparator (`MapComponent.tsx` lines 204-219): lexicon terms by
position, lexicon terms before unknown terms, unknown terms alphabetically. -/
def tourCompare (a b : ResearchArea) : Int :=
  let aIndex := termIndex a.term
  let bIndex := termIndex b.term
  if aIndex != -1 && bIndex != -1 then aIndex - bIndex
  else if aIndex != -1 then -1
  else if bIndex != -1 then 1
  else localeCompareInt a.term b.term

/-- `tourEntries` (`MapComponent.tsx` lines 196-222): the full research-area
list sorted by `tourCompare`.  ECMAScript `Array.prototype.sort` is a stable
sort, and for the total preorder `tourCompare · · ≤ 0` every stable sort
produces the same list, so it is embedded as Mathlib's stable
`List.insertionSort`. -/
def tourEntries (researchAreas : List ResearchArea) : List ResearchArea :=
  List.insertionSort (fun a b => tourCompare a b ≤ 0) researchAreas

/-- `tourEntries` as computed inside the component, which also receives the
`selectedFilters` prop (`MapComponent.tsx` line 93): the memo at lines 196-222
reads only `researchAreas`, never the filters. -/
def tourEntriesOfComponent (researchAreas : List ResearchArea)
    (_selectedFilters : FilterState) : List ResearchArea :=
  tourEntries researchAreas

/-- `filteredAreas` (`MapComponent.tsx` lines 116-122). -/
def filteredAreas (researchAreas : List ResearchArea)
    (selectedFilters : FilterState) : List ResearchArea :=
  researchAreas.filter (fun area =>
    (selectedFilters.departments.isEmpty ||
      selectedFilters.departments.contains area.department) &&
    (selectedFilters.terms.isEmpty ||
      selectedFilters.terms.contains area.term) &&
    (selectedFilters.types.isEmpty ||
      selectedFilters.types.contains area.type))

/-- The map camera state (`MapComponent.tsx` lines 101-105). -/
structure ViewState where
  longitude : ℚ
  latitude : ℚ
  zoom : ℚ
  deriving DecidableEq

/-- The component state held in `useState` hooks and timer refs
(`MapComponent.tsx` lines 94-113).  The two timer refs are abstracted to
whether a live handle exists. -/
structure AppState where
  selectedArea : Option ResearchArea
  selectedCluster : Option MarkerCluster
  previousCluster : Option MarkerCluster
  sidePanelOpen : Bool
  isUofUFocused : Bool
  showingFilteredResults : Bool
  viewState : ViewState
  isPlaying : Bool
  currentMarkerIndex : ℕ
  playProgress : ℚ
  timeLeft : ℤ
  playTimerSet : Bool
  progressTimerSet : Bool
  deriving DecidableEq

/-- The initial component state (`MapComponent.tsx` lines 94-113). -/
def initialState : AppState where
  selectedArea := none
  selectedCluster := none
  previousCluster := none
  sidePanelOpen := false
  isUofUFocused := false
  showingFilteredResults := false
  viewState := { longitude := 0, latitude := 20, zoom := 2 }
  isPlaying := false
  currentMarkerIndex := 0
  playProgress := 0
  timeLeft := 60
  playTimerSet := false
  progressTimerSet := false

/-- `stopPlay` (`MapComponent.tsx` lines 380-402). -/
def stopPlay (s : AppState) : AppState :=
  { s with
      isPlaying := false, currentMarkerIndex := 0, playProgress := 0,
      timeLeft := 60, playTimerSet := false, progressTimerSet := false,
      sidePanelOpen := false, selectedArea := none, selectedCluster := none,
      previousCluster := none }

/-- `closeSidePanel` (`MapComponent.tsx` lines 267-291). -/
def closeSidePanel (s : AppState) : AppState :=
  let s1 :=
    if s.isPlaying then
      { s with
          isPlaying := false, currentMarkerIndex := 0, playProgress := 0,
          timeLeft := 60, playTimerSet := false, progressTimerSet := false }
    else s
  { s1 with
      sidePanelOpen := false, selectedArea := none,
      selectedCluster := none, previousCluster := none,
      showingFilteredResults := false }

/-- `handleProjectClick` (`MapComponent.tsx` lines 325-342), generalised over
an optional argument because `handleClusterClick` passes `cluster.areas[0]`,
which is `undefined` for an empty member list.  The `if (selectedCluster)`
stash reads the render-time value `s.selectedCluster` even when `stopPlay()`
already queued clearing it. -/
def handleProjectClickWith (a : Option ResearchArea) (s : AppState) : AppState :=
  let afterStop := if s.isPlaying then stopPlay s else s
  let withPrev :=
    match s.selectedCluster with
    | some c => { afterStop with previousCluster := some c }
    | none => afterStop
  { withPrev with
      showingFilteredResults := false, selectedArea := a,
      selectedCluster := none, sidePanelOpen := true }

/-- `handleProjectClick` on a present research area. -/
def handleProjectClick (a : ResearchArea) (s : AppState) : AppState :=
  handleProjectClickWith (some a) s

/-- `handleClusterClick` (`MapComponent.tsx` lines 293-323).  For a
single-member marker it delegates to `handleProjectClick(cluster.areas[0])`,
whose writes subsume the ones already queued here. -/
def handleClusterClick (c : MarkerCluster) (s : AppState) : AppState :=
  if c.isCluster then
    let afterStop := if s.isPlaying then stopPlay s else s
    let s2 := { afterStop with showingFilteredResults := false }
    if s.viewState.zoom < 12 then
      { s2 with
          viewState :=
            { longitude := c.longitude, latitude := c.latitude,
              zoom := min (s.viewState.zoom + 3) 15 } }
    else
      { s2 with
          selectedCluster := some c, selectedArea := none,
          sidePanelOpen := true }
  else
    handleProjectClickWith c.areas.head? s

/-- `handleBackToCluster` (`MapComponent.tsx` lines 344-350). -/
def handleBackToCluster (s : AppState) : AppState :=
  match s.previousCluster with
  | some pc => { s with selectedCluster := some pc, selectedArea := none }
  | none => s

/-- The tour camera zoom tiers (`MapComponent.tsx` lines 414-441, nested
inside `navigateToMarker`). -/
def getZoomLevel (area : ResearchArea) : ℚ :=
  if area.mapFocus == "Campus" then 16
  else if 40.4 ≤ area.latitude ∧ area.latitude ≤ 40.9 ∧
          -112.2 ≤ area.longitude ∧ area.longitude ≤ -111.6 then 10
  else if 37 ≤ area.latitude ∧ area.latitude ≤ 42 ∧
          -114 ≤ area.longitude ∧ area.longitude ≤ -109 then 13/2
  else 3

/-- The synchronous state writes of `navigateToMarker` (`MapComponent.tsx`
lines 404-486): past the end of the tour it stops, otherwise it moves the
camera, selects the entry, opens the panel, and (re)arms both timers.  The
100ms tick arithmetic the armed interval performs is modelled separately by
`tickStateAfter`. -/
def navigateToMarker (entries : List ResearchArea) (index : ℕ)
    (s : AppState) : AppState :=
  if h : index < entries.length then
    let researchArea := entries.get ⟨index, h⟩
    { s with
        viewState :=
          { longitude := researchArea.longitude,
            latitude := researchArea.latitude,
            zoom := getZoomLevel researchArea },
        selectedArea := some researchArea, selectedCluster := none,
        sidePanelOpen := true, progressTimerSet := true, playTimerSet := true }
  else stopPlay s

/-- `startPlay` (`MapComponent.tsx` lines 353-378) composed with the
`useEffect` at lines 489-494 that invokes `navigateToMarker(0)` once playing
starts. -/
def startPlay (entries : List ResearchArea) (s : AppState) : AppState :=
  if entries.length = 0 then s
  else
    navigateToMarker entries 0
      { s with
          playTimerSet := false, progressTimerSet := false,
          currentMarkerIndex := 0, playProgress := 0, timeLeft := 60,
          selectedArea := none, selectedCluster := none, previousCluster := none,
          isPlaying := true }

/-- `goToNextMarker` (`MapComponent.tsx` lines 642-661).  The JavaScript guard
`currentMarkerIndex < tourEntries.length - 1` agrees with the truncated `ℕ`
subtraction: for an empty list it compares against `-1` and is false, and a
natural number is never below `0` either. -/
def goToNextMarker (entries : List ResearchArea) (s : AppState) : AppState :=
  if s.currentMarkerIndex < entries.length - 1 then
    navigateToMarker entries (s.currentMarkerIndex + 1)
      { s with
          currentMarkerIndex := s.currentMarkerIndex + 1,
          playProgress := 0, timeLeft := 60,
          progressTimerSet := false, playTimerSet := false }
  else s

/-- `goToPreviousMarker` (`MapComponent.tsx` lines 621-640). -/
def goToPreviousMarker (entries : List ResearchArea) (s : AppState) : AppState :=
  if 0 < s.currentMarkerIndex then
    navigateToMarker entries (s.currentMarkerIndex - 1)
      { s with
          currentMarkerIndex := s.currentMarkerIndex - 1,
          playProgress := 0, timeLeft := 60,
          progressTimerSet := false, playTimerSet := false }
  else s

/-- The selection operations named by the spec. -/
inductive SelEvent where
  | clickProject : ResearchArea → SelEvent
  | clickCluster : MarkerCluster → SelEvent
  | back : SelEvent
  | close : SelEvent

/-- Dispatch one selection event to its handler. -/
def selStep (s : AppState) : SelEvent → AppState
  | .clickProject a => handleProjectClick a s
  | .clickCluster c => handleClusterClick c s
  | .back => handleBackToCluster s
  | .close => closeSidePanel s

/-- The manual tour navigation operations. -/
inductive TourNavEvent where
  | next : TourNavEvent
  | prev : TourNavEvent

/-- Dispatch one tour navigation event to its handler. -/
def tourNavStep (entries : List ResearchArea) (s : AppState) :
    TourNavEvent → AppState
  | .next => goToNextMarker entries s
  | .prev => goToPreviousMarker entries s

/-- One firing of the 100ms progress interval armed by `navigateToMarker`
(`MapComponent.tsx` lines 466-473): the accumulator `progress` grows by
`100 / 60000` and `timeRemaining` shrinks by `0.1`. -/
def progressTick (s : ℚ × ℚ) : ℚ × ℚ :=
  (s.1 + 100 / 60000, s.2 - 0.1)

/-- The `(progress, timeRemaining)` accumulators after `k` firings of the
interval, starting from `(0, 60)` (`MapComponent.tsx` lines 466-467). -/
def tickStateAfter : ℕ → ℚ × ℚ
  | 0 => (0, 60)
  | k + 1 => progressTick (tickStateAfter k)

/-- The displayed progress after `k` ticks:
`setPlayProgress(Math.min(progress, 100))` (`MapComponent.tsx` line 471). -/
def displayedProgressAfter (k : ℕ) : ℚ :=
  min (tickStateAfter k).1 100

/-- The displayed countdown after `k` ticks:
`setTimeLeft(Math.max(0, Math.ceil(timeRemaining)))` (`MapComponent.tsx`
line 472). -/
def displayedTimeLeftAfter (k : ℕ) : ℤ :=
  max 0 ⌈(tickStateAfter k).2⌉

/-- Number of whole 100ms intervals inside the 60000ms dwell timeout
(`MapComponent.tsx` lines 473, 485). -/
def dwellTicks : ℕ := 60000 / 100

/-- The per-tick progress increment written in the source
(`MapComponent.tsx` line 469). -/
def codeProgressStep : ℚ := 100 / 60000

/-- The per-tick progress increment the spec prescribes:
`100 / durationMs * 100` with `durationMs = 60000`. -/
def specProgressStep : ℚ := 100 / 60000 * 100

/-- Fixture constructor for concrete test points: only the fields the embedded
functions inspect vary. -/
def mkArea (nm : String) (lat lng : ℚ) (term : String) : ResearchArea :=
  { name := nm, description := "", latitude := lat, longitude := lng,
    category := "", department := "", term := term, type := "",
    mapFocus := "World", researcherName := nm, collaborator := "",
    links := "", geographicFocus := "" }

/-- First point of the spec's clustering example: `(0, 0)`. -/
def examplePointA : ResearchArea := mkArea "P1" 0 0 ""

/-- Second point of the spec's clustering example: `(0.0001, 0.0001)`. -/
def examplePointB : ResearchArea := mkArea "P2" (1/10000) (1/10000) ""

/-- Third point of the spec's clustering example: `(10, 10)`. -/
def examplePointC : ResearchArea := mkArea "P3" 10 10 ""

/-- The spec's three-point clustering example. -/
def examplePoints : List ResearchArea :=
  [examplePointA, examplePointB, examplePointC]

/-- Quad configuration refuting threshold monotonicity: the seed `(0,0)`. -/
def quadPointA : ResearchArea := mkArea "Q1" 0 0 ""

/-- Quad configuration: the hub `(0,6)`, at distance 6 from the seed. -/
def quadPointB : ResearchArea := mkArea "Q2" 0 6 ""

/-- Quad configuration: `(4,6)`, at distance 4 from the hub, `√52` from the
seed and 8 from its mirror point. -/
def quadPointC : ResearchArea := mkArea "Q3" 4 6 ""

/-- Quad configuration: `(-4,6)`, the mirror of the previous point. -/
def quadPointD : ResearchArea := mkArea "Q4" (-4) 6 ""

/-- Four points on which the greedy clustering produces 2 clusters at
threshold 4 but 3 clusters at the larger threshold 6. -/
def quadPoints : List ResearchArea :=
  [quadPointA, quadPointB, quadPointC, quadPointD]

/-- Tour fixture `A(term="Fall 24")`. -/
def tourPointA : ResearchArea := mkArea "A" 1 1 "Fall 24"

/-- Tour fixture `B(term="Spring 24")`. -/
def tourPointB : ResearchArea := mkArea "B" 2 2 "Spring 24"

/-- Tour fixture `C(term="Summer 25")`. -/
def tourPointC : ResearchArea := mkArea "C" 3 3 "Summer 25"

/-- A single sample point at the origin. -/
def samplePoint : ResearchArea := mkArea "Sample" 0 0 "Fall 24"

/-- The cluster produced by clustering `[samplePoint]` alone. -/
def sampleCluster : MarkerCluster :=
  { id := "cluster-0", longitude := 0, latitude := 0,
    areas := [samplePoint], isCluster := false }

/-- The initial component state with a tour marked as playing. -/
def samplePlayingState : AppState :=
  { initialState with isPlaying := true }

/-- Mutual exclusion of the two selection slots, the invariant of claim C7. -/
def selectionExclusive (s : AppState) : Prop :=
  s.selectedArea = none ∨ s.selectedCluster = none

/-- The ordering the spec prescribes for tour entries: lexicon terms by
lexicon position (most recent first), every lexicon term before every unknown
term, unknown terms alphabetically by term. -/
def tourSpecLe (a b : ResearchArea) : Prop :=
  if termIndex a.term ≠ -1 then
    termIndex b.term ≠ -1 → termIndex a.term ≤ termIndex b.term
  else
    termIndex b.term = -1 ∧ a.term ≤ b.term

/-- The embedded proximity test agrees with the source's formula
`Math.sqrt(latDiff² + lngDiff²) <= clusterDistance` interpreted over the real
numbers. -/
theorem withinDistance_iff_sqrt (a b : ResearchArea) (d : ℚ) :
    withinDistance a b d = true ↔
      Real.sqrt ((|(a.latitude : ℝ) - (b.latitude : ℝ)|) ^ 2 +
        (|(a.longitude : ℝ) - (b.longitude : ℝ)|) ^ 2) ≤ (d : ℝ) := by
  rw [withinDistance, decide_eq_true_eq, Real.sqrt_le_iff, sq_abs, sq_abs]
  constructor
  · rintro ⟨h0, h⟩
    refine ⟨by exact_mod_cast h0, ?_⟩
    exact_mod_cast h
  · rintro ⟨h0, h⟩
    refine ⟨by exact_mod_cast h0, ?_⟩
    exact_mod_cast h

set_option maxHeartbeats 1600000 in
/-- C4: the zoom-to-distance table `getClusterDistance` is monotonically
non-increasing in zoom, yields at least 1.0 degrees at zoom 1, and yields at
most 0.005 degrees for every zoom of at least 15. -/
theorem getClusterDistance_spec :
    (∀ z1 z2 : ℚ, z1 ≤ z2 → getClusterDistance z2 ≤ getClusterDistance z1) ∧
    1 ≤ getClusterDistance 1 ∧
    (∀ z : ℚ, 15 ≤ z → getClusterDistance z ≤ 5/1000) := by
  refine ⟨?_, ?_, ?_⟩
  · intro z1 z2 h
    unfold getClusterDistance
    split_ifs <;> linarith
  · norm_num [getClusterDistance]
  · intro z h
    unfold getClusterDistance
    split_ifs <;> linarith

/-- Witness for C4 at concrete zoom levels 2, 4 and 16. -/
theorem getClusterDistance_spec_witness :
    (2 : ℚ) ≤ 4 ∧ getClusterDistance 4 ≤ getClusterDistance 2 ∧
    (15 : ℚ) ≤ 16 ∧ getClusterDistance 16 ≤ 5/1000 :=
  ⟨by norm_num, getClusterDistance_spec.1 2 4 (by norm_num),
   by norm_num, getClusterDistance_spec.2.2 16 (by norm_num)⟩

/-- Closed form of the `(progress, timeRemaining)` accumulators. -/
theorem tickStateAfter_eq (k : ℕ) :
    tickStateAfter k = ((k : ℚ) * (100/60000), 60 - (k : ℚ) * (1/10)) := by
  induction k with
  | zero => simp [tickStateAfter]
  | succ n ih =>
    rw [tickStateAfter, ih, progressTick, Prod.mk.injEq]
    push_cast
    constructor <;> ring_nf

/-- C2 (code bug): the 100ms tick of `navigateToMarker` adds `100/60000` to the
progress accumulator instead of the spec's `100/durationMs*100`, so after all
600 ticks of the 60000ms dwell the displayed progress is only 1 (the bar shows
1%), far below 100, even though the countdown has correctly reached 0 — the
advance timer therefore fires while the displayed progress is below 100. -/
theorem tour_progress_tick_shortfall :
    codeProgressStep ≠ specProgressStep ∧
    dwellTicks = 600 ∧
    displayedProgressAfter 600 = 1 ∧
    displayedProgressAfter 600 < 100 ∧
    displayedTimeLeftAfter 600 = 0 := by
  refine ⟨?_, by norm_num [dwellTicks], ?_, ?_, ?_⟩
  · norm_num [codeProgressStep, specProgressStep]
  · rw [displayedProgressAfter, tickStateAfter_eq]
    norm_num
  · rw [displayedProgressAfter, tickStateAfter_eq]
    norm_num
  · rw [displayedTimeLeftAfter, tickStateAfter_eq]
    norm_num

/-- C10: the tour entry list computed by the component does not depend on the
facet filter state — two runs over the same loaded points with different
filter selections visit the same points in the same order. -/
theorem tourEntries_filter_noninterference :
    ∀ (researchAreas : List ResearchArea) (f1 f2 : FilterState),
      tourEntriesOfComponent researchAreas f1 =
        tourEntriesOfComponent researchAreas f2 := by
  intro _ _ _
  rfl

/-- Each selection handler preserves mutual exclusion of the two selection
slots. -/
theorem selStep_preserves_exclusive (s : AppState) (e : SelEvent)
    (h : selectionExclusive s) : selectionExclusive (selStep s e) := by
  cases e with
  | clickProject a =>
    right
    simp [selStep, handleProjectClick, handleProjectClickWith]
  | clickCluster c =>
    by_cases hc : c.isCluster = true <;>
      by_cases hp : s.isPlaying = true <;>
        by_cases hz : s.viewState.zoom < 12 <;>
          simp [selStep, handleClusterClick, handleProjectClickWith, stopPlay,
            selectionExclusive, hc, hp, hz] <;>
          exact h
  | back =>
    rw [selStep, handleBackToCluster]
    cases hpc : s.previousCluster with
    | none => exact h
    | some pc => left; rfl
  | close =>
    left
    simp [selStep, closeSidePanel]

/-- C7: after any sequence of selection operations from the initial state,
`selectedArea` and `selectedCluster` are never both non-`none`. -/
theorem selection_mutual_exclusion (evs : List SelEvent) :
    (evs.foldl selStep initialState).selectedArea = none ∨
    (evs.foldl selStep initialState).selectedCluster = none := by
  have key : ∀ (l : List SelEvent) (s : AppState), selectionExclusive s →
      selectionExclusive (l.foldl selStep s) := by
    intro l
    induction l with
    | nil => intro s hs; exact hs
    | cons e t ih => intro s hs; exact ih _ (selStep_preserves_exclusive s e hs)
  exact key evs initialState (Or.inl rfl)

/-- The synchronous part of `navigateToMarker` never moves the index: in range
it leaves `currentMarkerIndex` alone, past the end it resets it to 0 via
`stopPlay`. -/
theorem navigateToMarker_currentMarkerIndex (entries : List ResearchArea)
    (i : ℕ) (s : AppState) :
    (navigateToMarker entries i s).currentMarkerIndex =
      if i < entries.length then s.currentMarkerIndex else 0 := by
  unfold navigateToMarker
  split <;> simp_all [stopPlay]

/-- C8: for a started tour over at least one entry, any sequence of
next/previous clicks keeps `currentMarkerIndex` within `[0, N-1]` (the lower
bound holds by the index being a natural number); moreover a next click at the
last index and a previous click at index 0 leave the whole state unchanged
(and, being total functions, never throw). -/
theorem tour_index_bounds (entries : List ResearchArea)
    (h : 1 ≤ entries.length) (evs : List TourNavEvent) :
    (evs.foldl (tourNavStep entries)
        (startPlay entries initialState)).currentMarkerIndex ≤
      entries.length - 1 ∧
    (∀ s : AppState, s.currentMarkerIndex = entries.length - 1 →
      goToNextMarker entries s = s) ∧
    (∀ s : AppState, s.currentMarkerIndex = 0 →
      goToPreviousMarker entries s = s) := by
  refine ⟨?_, ?_, ?_⟩
  · have step : ∀ (s : AppState) (e : TourNavEvent),
        s.currentMarkerIndex ≤ entries.length - 1 →
        (tourNavStep entries s e).currentMarkerIndex ≤ entries.length - 1 := by
      intro s e hs
      cases e with
      | next =>
        rw [tourNavStep, goToNextMarker]
        split_ifs with hlt
        · rw [navigateToMarker_currentMarkerIndex]
          split_ifs <;> simp <;> omega
        · exact hs
      | prev =>
        rw [tourNavStep, goToPreviousMarker]
        split_ifs with hlt
        · rw [navigateToMarker_currentMarkerIndex]
          split_ifs <;> simp <;> omega
        · exact hs
    have hinit : (startPlay entries initialState).currentMarkerIndex ≤
        entries.length - 1 := by
      rw [startPlay]
      split_ifs with h0
      · exact absurd h0 (by omega)
      · rw [navigateToMarker_currentMarkerIndex]
        split_ifs <;> simp [initialState]
    have fold : ∀ (l : List TourNavEvent) (s : AppState),
        s.currentMarkerIndex ≤ entries.length - 1 →
        (l.foldl (tourNavStep entries) s).currentMarkerIndex ≤
          entries.length - 1 := by
      intro l
      induction l with
      | nil => intro s hs; exact hs
      | cons e t ih => intro s hs; exact ih _ (step s e hs)
    exact fold evs _ hinit
  · intro s hs
    rw [goToNextMarker, if_neg (by omega)]
  · intro s hs
    rw [goToPreviousMarker, if_neg (by omega)]

/-- Witness for C8: a one-entry tour, one next click then one previous click. -/
theorem tour_index_bounds_witness :
    1 ≤ [samplePoint].length ∧
    (List.foldl (tourNavStep [samplePoint])
        (startPlay [samplePoint] initialState)
        [TourNavEvent.next, TourNavEvent.prev]).currentMarkerIndex ≤
      [samplePoint].length - 1 :=
  ⟨by simp,
   (tour_index_bounds [samplePoint] (by simp)
     [TourNavEvent.next, TourNavEvent.prev]).1⟩

/-- C9: advancing to an index equal to the number of tour entries while
playing stops the tour: `isPlaying` becomes false, the index, progress,
countdown and timers are reset, the camera does not move, no entry is
selected, and a second identical call changes nothing further ("exactly
once"). -/
theorem tour_termination (entries : List ResearchArea) (s : AppState)
    (h : s.isPlaying = true) :
    (navigateToMarker entries entries.length s).isPlaying = false ∧
    (navigateToMarker entries entries.length s).currentMarkerIndex = 0 ∧
    (navigateToMarker entries entries.length s).playProgress = 0 ∧
    (navigateToMarker entries entries.length s).timeLeft = 60 ∧
    (navigateToMarker entries entries.length s).playTimerSet = false ∧
    (navigateToMarker entries entries.length s).progressTimerSet = false ∧
    (navigateToMarker entries entries.length s).viewState = s.viewState ∧
    (navigateToMarker entries entries.length s).selectedArea = none ∧
    (navigateToMarker entries entries.length s).selectedCluster = none ∧
    navigateToMarker entries entries.length
        (navigateToMarker entries entries.length s) =
      navigateToMarker entries entries.length s := by
  have hn : ∀ t : AppState, navigateToMarker entries entries.length t =
      stopPlay t := by
    intro t
    unfold navigateToMarker
    rw [dif_neg (by omega)]
  rw [hn, hn]
  exact ⟨rfl, rfl, rfl, rfl, rfl, rfl, rfl, rfl, rfl, rfl⟩

/-- Witness for C9: an empty tour in the playing state. -/
theorem tour_termination_witness :
    samplePlayingState.isPlaying = true ∧
    (navigateToMarker [] 0 samplePlayingState).isPlaying = false :=
  ⟨rfl, (tour_termination [] samplePlayingState rfl).1⟩

/-- Numbered cluster ids never collide with the sentinel id. -/
theorem clusterId_ne_sentinel (n : ℕ) :
    ("cluster-" ++ toString n) ≠ "selected-cluster" := by
  intro h
  have h2 := congrArg (fun s => s.data.head?) h
  simp only [String.data_append] at h2
  simp at h2

/-- Filtering cannot create an element satisfying a predicate that no element
of the original list satisfied. -/
theorem any_filter_eq_false {α : Type} {p q : α → Bool} {l : List α}
    (h : l.any p = false) : (l.filter q).any p = false := by
  rw [List.any_eq_false] at h ⊢
  intro x hx
  exact h x (List.mem_filter.mp hx).1

/-- Every cluster emitted by the greedy loop carries its member list, the
arithmetic mean of the member coordinates as its centroid, and the
more-than-one-member flag. -/
theorem clusterLoop_mem_spec (d : ℚ) (sel : Option ResearchArea) :
    ∀ (fuel : ℕ) (l : List ResearchArea) (n : ℕ) (f : Bool),
      ∀ c ∈ clusterLoop d sel fuel l n f,
        c.areas ≠ [] ∧
        c.longitude = (c.areas.map (fun a => a.longitude)).sum / c.areas.length ∧
        c.latitude = (c.areas.map (fun a => a.latitude)).sum / c.areas.length ∧
        (c.isCluster = true ↔ 1 < c.areas.length) := by
  intro fuel
  induction fuel with
  | zero =>
    intro l n f c hc
    cases l <;> simp [clusterLoop] at hc
  | succ m ih =>
    intro l n f c hc
    cases l with
    | nil => simp [clusterLoop] at hc
    | cons a rest =>
      simp only [clusterLoop, List.mem_cons] at hc
      rcases hc with rfl | hc
      · refine ⟨by simp, rfl, rfl, ?_⟩
        simp
      · exact ih _ _ _ c hc

/-- C5: every cluster returned by `clusterMarkers` has a non-empty member
list, its longitude and latitude are the arithmetic means of its members'
longitudes and latitudes (exact over `ℚ`), and `isCluster` holds exactly when
the cluster has more than one member. -/
theorem cluster_centroid_mean (areas : List ResearchArea) (zoom : ℚ)
    (sel : Option ResearchArea) :
    ∀ c ∈ clusterMarkers areas zoom sel,
      c.areas ≠ [] ∧
      c.longitude = (c.areas.map (fun a => a.longitude)).sum / c.areas.length ∧
      c.latitude = (c.areas.map (fun a => a.latitude)).sum / c.areas.length ∧
      (c.isCluster = true ↔ 1 < c.areas.length) := by
  intro c hc
  exact clusterLoop_mem_spec (getClusterDistance zoom) sel areas.length areas
    0 false c hc

/-- Witness for C5: clustering a single point at the origin yields exactly
`sampleCluster`, whose centroid is the mean of its one member. -/
theorem cluster_centroid_mean_witness :
    sampleCluster ∈ clusterMarkers [samplePoint] 2 none ∧
    sampleCluster.longitude =
      (sampleCluster.areas.map (fun a => a.longitude)).sum /
        sampleCluster.areas.length := by
  have hmem : clusterMarkers [samplePoint] 2 none = [sampleCluster] := by
    simp only [clusterMarkers, clusterAtDistance, List.length_cons,
      List.length_nil, clusterLoop, List.filter_nil, List.map_cons,
      List.map_nil, List.sum_cons, List.sum_nil, List.any_cons, List.any_nil]
    norm_num [sampleCluster, samplePoint, mkArea]
    decide
  constructor
  · rw [hmem]
    exact List.mem_singleton.mpr rfl
  · exact (cluster_centroid_mean [samplePoint] 2 none sampleCluster
      (by rw [hmem]; exact List.mem_singleton.mpr rfl)).2.1

/-- Once the `selectedClusterFound` flag is set, no later cluster receives the
sentinel id. -/
theorem clusterLoop_flag_no_sentinel (d : ℚ) (sel : Option ResearchArea) :
    ∀ (fuel : ℕ) (l : List ResearchArea) (n : ℕ),
      ∀ c ∈ clusterLoop d sel fuel l n true, c.id ≠ "selected-cluster" := by
  intro fuel
  induction fuel with
  | zero =>
    intro l n c hc
    cases l <;> simp [clusterLoop] at hc
  | succ m ih =>
    intro l n c hc
    cases l with
    | nil => simp [clusterLoop] at hc
    | cons a rest =>
      simp only [clusterLoop, Bool.not_true, Bool.and_false, if_false,
        Bool.or_false, List.mem_cons] at hc
      rcases hc with rfl | hc
      · exact clusterId_ne_sentinel n
      · exact ih _ _ c hc

/-- With no focus point at all, no cluster receives the sentinel id. -/
theorem clusterLoop_none_no_sentinel (d : ℚ) :
    ∀ (fuel : ℕ) (l : List ResearchArea) (n : ℕ) (f : Bool),
      ∀ c ∈ clusterLoop d none fuel l n f, c.id ≠ "selected-cluster" := by
  intro fuel
  induction fuel with
  | zero =>
    intro l n f c hc
    cases l <;> simp [clusterLoop] at hc
  | succ m ih =>
    intro l n f c hc
    cases l with
    | nil => simp [clusterLoop] at hc
    | cons a rest =>
      simp only [clusterLoop, Bool.false_and, if_false, Bool.or_false,
        List.mem_cons] at hc
      rcases hc with rfl | hc
      · exact clusterId_ne_sentinel n
      · exact ih _ _ _ c hc

/-- If no point of the remaining list matches the focus point, no cluster
built from it receives the sentinel id. -/
theorem clusterLoop_absent_no_sentinel (d : ℚ) (s : ResearchArea) :
    ∀ (fuel : ℕ) (l : List ResearchArea) (n : ℕ) (f : Bool),
      l.any (matchesSelected s) = false →
      ∀ c ∈ clusterLoop d (some s) fuel l n f, c.id ≠ "selected-cluster" := by
  intro fuel
  induction fuel with
  | zero =>
    intro l n f hl c hc
    cases l <;> simp [clusterLoop] at hc
  | succ m ih =>
    intro l n f hl c hc
    cases l with
    | nil => simp [clusterLoop] at hc
    | cons a rest =>
      have ha : matchesSelected s a = false := by
        rw [List.any_cons, Bool.or_eq_false_iff] at hl
        exact hl.1
      have hrest : rest.any (matchesSelected s) = false := by
        rw [List.any_cons, Bool.or_eq_false_iff] at hl
        exact hl.2
      have hnear : ((rest.filter (fun b => withinDistance a b d)).any
          (matchesSelected s)) = false := any_filter_eq_false hrest
      have hfar : ((rest.filter (fun b => !(withinDistance a b d))).any
          (matchesSelected s)) = false := any_filter_eq_false hrest
      simp only [clusterLoop, List.mem_cons, List.any_cons, ha, hnear,
        Bool.false_or, Bool.false_and, if_false, Bool.or_false] at hc
      rcases hc with rfl | hc
      · exact clusterId_ne_sentinel n
      · exact ih _ _ _ hfar c hc

/-- If some point of the remaining list matches the focus point and the flag
is still clear, the loop emits exactly one sentinel cluster, and every
sentinel cluster contains a matching member. -/
theorem clusterLoop_present_sentinel (d : ℚ) (s : ResearchArea) :
    ∀ (fuel : ℕ) (l : List ResearchArea) (n : ℕ),
      l.length ≤ fuel →
      l.any (matchesSelected s) = true →
      (clusterLoop d (some s) fuel l n false).countP
          (fun c => c.id == "selected-cluster") = 1 ∧
      ∀ c ∈ clusterLoop d (some s) fuel l n false,
        c.id = "selected-cluster" → c.areas.any (matchesSelected s) = true := by
  intro fuel
  induction fuel with
  | zero =>
    intro l n hfuel hany
    interval_cases hl : l.length
    · rw [List.length_eq_zero] at hl
      subst hl
      simp at hany
  | succ m ih =>
    intro l n hfuel hany
    cases l with
    | nil => simp at hany
    | cons a rest =>
      by_cases hc : ((a :: rest.filter (fun b => withinDistance a b d)).any
          (matchesSelected s)) = true
      · -- the head cluster contains the match and becomes the sentinel
        simp only [clusterLoop, hc, Bool.not_false, Bool.and_true, if_true,
          Bool.or_true, List.countP_cons, List.mem_cons]
        constructor
        · have hzero : (clusterLoop d (some s) m
              (rest.filter (fun b => !(withinDistance a b d))) (n + 1)
              true).countP (fun c => c.id == "selected-cluster") = 0 := by
            rw [List.countP_eq_zero]
            intro c hmem
            simp only [beq_iff_eq]
            exact clusterLoop_flag_no_sentinel d (some s) m _ _ c hmem
          simp [hzero]
        · intro c hmem
          rcases hmem with rfl | hmem
          · intro _
            exact hc
          · intro hid
            exact absurd hid
              (clusterLoop_flag_no_sentinel d (some s) m _ _ c hmem)
      · -- the match lies beyond this pass; recurse on the far remainder
        have hfar : ((rest.filter (fun b => !(withinDistance a b d))).any
            (matchesSelected s)) = true := by
          rcases List.any_eq_true.mp hany with ⟨x, hx, hpx⟩
          rcases List.mem_cons.mp hx with rfl | hxrest
          · exact absurd (by simp [hpx]) hc
          · rcases hw : withinDistance a x d with _ | _
            · exact List.any_eq_true.mpr
                ⟨x, List.mem_filter.mpr ⟨hxrest, by simp [hw]⟩, hpx⟩
            · exact absurd
                (List.any_eq_true.mpr
                  ⟨x, List.mem_cons.mpr
                    (Or.inr (List.mem_filter.mpr ⟨hxrest, by simp [hw]⟩)),
                   hpx⟩) hc
        have hfuel2 : (rest.filter
            (fun b => !(withinDistance a b d))).length ≤ m := by
          have h1 := List.length_filter_le
            (fun b => !(withinDistance a b d)) rest
          simp only [List.length_cons] at hfuel
          omega
        have hrec := ih (rest.filter (fun b => !(withinDistance a b d)))
          (n + 1) hfuel2 hfar
        have hcfalse : ((a :: rest.filter (fun b => withinDistance a b d)).any
            (matchesSelected s)) = false := by
          rcases h : ((a :: rest.filter (fun b => withinDistance a b d)).any
              (matchesSelected s)) with _ | _
          · rfl
          · exact absurd h hc
        simp only [clusterLoop, hcfalse, Bool.false_and, if_false,
          Bool.or_false, List.countP_cons, List.mem_cons]
        constructor
        · have hhead : (("cluster-" ++ toString n : String) ==
              "selected-cluster") = false := by
            simp only [beq_eq_false_iff_ne, ne_eq]
            exact clusterId_ne_sentinel n
          simp [hhead, hrec.1]
        · intro c hmem
          rcases hmem with rfl | hmem
          · intro hid
            exact absurd hid (clusterId_ne_sentinel n)
          · exact hrec.2 c hmem

/-- C3: for any point list, zoom level and focus point, if the focus point is
present in the list (matched by name and researcherName) then exactly one
cluster returned by `clusterMarkers` carries the id `selected-cluster` and
every such cluster contains a matching member; if the focus point matches no
point, or is absent (`none`), no cluster carries that id. -/
theorem selectedCluster_sentinel_unique (areas : List ResearchArea)
    (s : ResearchArea) (zoom : ℚ) :
    (areas.any (matchesSelected s) = true →
      (clusterMarkers areas zoom (some s)).countP
          (fun c => c.id == "selected-cluster") = 1 ∧
      ∀ c ∈ clusterMarkers areas zoom (some s),
        c.id = "selected-cluster" →
          c.areas.any (matchesSelected s) = true) ∧
    (areas.any (matchesSelected s) = false →
      ∀ c ∈ clusterMarkers areas zoom (some s),
        c.id ≠ "selected-cluster") ∧
    (∀ c ∈ clusterMarkers areas zoom none, c.id ≠ "selected-cluster") := by
  refine ⟨?_, ?_, ?_⟩
  · intro hpres
    exact clusterLoop_present_sentinel (getClusterDistance zoom) s
      areas.length areas 0 le_rfl hpres
  · intro habs
    exact clusterLoop_absent_no_sentinel (getClusterDistance zoom) s
      areas.length areas 0 false habs
  · exact clusterLoop_none_no_sentinel (getClusterDistance zoom)
      areas.length areas 0 false

/-- Witness for C3: the three example points with the first one focused. -/
theorem selectedCluster_sentinel_unique_witness :
    examplePoints.any (matchesSelected examplePointA) = true ∧
    (clusterMarkers examplePoints 2 (some examplePointA)).countP
        (fun c => c.id == "selected-cluster") = 1 :=
  ⟨by decide,
   ((selectedCluster_sentinel_unique examplePoints examplePointA 2).1
     (by decide)).1⟩

/-- The proximity test is monotone in the threshold. -/
theorem withinDistance_mono (a b : ResearchArea) (d1 d2 : ℚ) (h0 : 0 ≤ d1)
    (h12 : d1 ≤ d2) (h : withinDistance a b d1 = true) :
    withinDistance a b d2 = true := by
  simp only [withinDistance, decide_eq_true_eq] at h ⊢
  obtain ⟨-, hle⟩ := h
  exact ⟨le_trans h0 h12, le_trans hle (by nlinarith)⟩

/-- Cluster count of the empty input: zero clusters. -/
theorem clusterAtDistance_length_nil (d : ℚ) (sel : Option ResearchArea) :
    (clusterAtDistance [] d sel).length = 0 := by
  simp [clusterAtDistance, clusterLoop]

/-- Cluster count of a single point: one cluster. -/
theorem clusterAtDistance_length_one (a : ResearchArea) (d : ℚ)
    (sel : Option ResearchArea) :
    (clusterAtDistance [a] d sel).length = 1 := by
  simp [clusterAtDistance, clusterLoop]

/-- Cluster count of two points, by case on their proximity. -/
theorem clusterAtDistance_length_two (a b : ResearchArea) (d : ℚ)
    (sel : Option ResearchArea) :
    (clusterAtDistance [a, b] d sel).length =
      if withinDistance a b d = true then 1 else 2 := by
  rcases hab : withinDistance a b d <;>
    simp [clusterAtDistance, clusterLoop, List.filter_cons, List.filter_nil,
      hab]

/-- Cluster count of three points, by cases on the three proximity tests
(the greedy loop never compares `b` with `c` when one of them is absorbed by
the seed `a`). -/
theorem clusterAtDistance_length_three (a b c : ResearchArea) (d : ℚ)
    (sel : Option ResearchArea) :
    (clusterAtDistance [a, b, c] d sel).length =
      if withinDistance a b d = true then
        (if withinDistance a c d = true then 1 else 2)
      else if withinDistance a c d = true then 2
      else if withinDistance b c d = true then 2 else 3 := by
  rcases hab : withinDistance a b d <;> rcases hac : withinDistance a c d <;>
    rcases hbc : withinDistance b c d <;>
      simp [clusterAtDistance, clusterLoop, List.filter_cons, List.filter_nil,
        hab, hac, hbc]

/-- Counterexample to C1 as stated: on the four `quadPoints`, raising the
threshold from 4 to 6 increases the cluster count from 2 to 3 — at threshold 4
the hub `(0,6)` seeds the cluster `{(0,6),(4,6),(-4,6)}`, while at threshold 6
the seed `(0,0)` absorbs the hub first and the two wing points, more than 6
apart from the seed and from each other, each become singletons.  Moreover the
spec's own example is wrong at its loose threshold: `(10,10)` lies `√200 ≈
14.14` degrees from the origin, beyond 5.0, so threshold 5.0 still yields 2
clusters, not 1. -/
theorem clusterCount_threshold_not_monotone :
    (4 : ℚ) ≤ 6 ∧
    (clusterAtDistance quadPoints 4 none).length = 2 ∧
    (clusterAtDistance quadPoints 6 none).length = 3 ∧
    ¬((clusterAtDistance quadPoints 6 none).length ≤
      (clusterAtDistance quadPoints 4 none).length) ∧
    (clusterAtDistance examplePoints 5 none).length ≠ 1 := by
  have hAB4 : withinDistance quadPointA quadPointB 4 = false := by
    norm_num [withinDistance, quadPointA, quadPointB, mkArea]
  have hAC4 : withinDistance quadPointA quadPointC 4 = false := by
    norm_num [withinDistance, quadPointA, quadPointC, mkArea]
  have hAD4 : withinDistance quadPointA quadPointD 4 = false := by
    norm_num [withinDistance, quadPointA, quadPointD, mkArea]
  have hBC4 : withinDistance quadPointB quadPointC 4 = true := by
    norm_num [withinDistance, quadPointB, quadPointC, mkArea]
  have hBD4 : withinDistance quadPointB quadPointD 4 = true := by
    norm_num [withinDistance, quadPointB, quadPointD, mkArea]
  have hAB6 : withinDistance quadPointA quadPointB 6 = true := by
    norm_num [withinDistance, quadPointA, quadPointB, mkArea]
  have hAC6 : withinDistance quadPointA quadPointC 6 = false := by
    norm_num [withinDistance, quadPointA, quadPointC, mkArea]
  have hAD6 : withinDistance quadPointA quadPointD 6 = false := by
    norm_num [withinDistance, quadPointA, quadPointD, mkArea]
  have hCD6 : withinDistance quadPointC quadPointD 6 = false := by
    norm_num [withinDistance, quadPointC, quadPointD, mkArea]
  have h4 : (clusterAtDistance quadPoints 4 none).length = 2 := by
    simp [clusterAtDistance, quadPoints, clusterLoop, List.filter_cons,
      List.filter_nil, hAB4, hAC4, hAD4, hBC4, hBD4]
  have h6 : (clusterAtDistance quadPoints 6 none).length = 3 := by
    simp [clusterAtDistance, quadPoints, clusterLoop, List.filter_cons,
      List.filter_nil, hAB6, hAC6, hAD6, hCD6]
  have hABx : withinDistance examplePointA examplePointB 5 = true := by
    norm_num [withinDistance, examplePointA, examplePointB, mkArea]
  have hACx : withinDistance examplePointA examplePointC 5 = false := by
    norm_num [withinDistance, examplePointA, examplePointC, mkArea]
  have hex : (clusterAtDistance examplePoints 5 none).length = 2 := by
    rw [show examplePoints =
      [examplePointA, examplePointB, examplePointC] from rfl,
      clusterAtDistance_length_three]
    simp [hABx, hACx]
  exact ⟨by norm_num, h4, h6, by omega, by omega⟩

/-- C1 amended: threshold monotonicity of the cluster count holds for point
sets of at most three points (it fails from four points on, see the
counterexample), and on the spec's three example points the counts are 2 at
the tight threshold 0.0005 and again 2 at the loose threshold 5.0 — a
threshold of 15, beyond the `√200` separation, is needed to merge all three
into one cluster. -/
theorem clusterCount_monotone_small_and_example :
    (∀ (pts : List ResearchArea) (sel : Option ResearchArea) (d1 d2 : ℚ),
      pts.length ≤ 3 → 0 ≤ d1 → d1 ≤ d2 →
      (clusterAtDistance pts d2 sel).length ≤
        (clusterAtDistance pts d1 sel).length) ∧
    (clusterAtDistance examplePoints (1/2000) none).length = 2 ∧
    (clusterAtDistance examplePoints 5 none).length = 2 ∧
    (clusterAtDistance examplePoints 15 none).length = 1 := by
  refine ⟨?_, ?_, ?_, ?_⟩
  · intro pts sel d1 d2 hlen h0 h12
    rcases pts with _ | ⟨a, _ | ⟨b, _ | ⟨c, _ | ⟨e, rest⟩⟩⟩⟩
    · simp [clusterAtDistance_length_nil]
    · simp [clusterAtDistance_length_one]
    · rw [clusterAtDistance_length_two, clusterAtDistance_length_two]
      by_cases hab1 : withinDistance a b d1 = true <;>
        by_cases hab2 : withinDistance a b d2 = true <;>
          simp [hab1, hab2] <;>
          first
          | omega
          | exact absurd (withinDistance_mono a b d1 d2 h0 h12 hab1) hab2
    · rw [clusterAtDistance_length_three, clusterAtDistance_length_three]
      by_cases hab1 : withinDistance a b d1 = true <;>
        by_cases hac1 : withinDistance a c d1 = true <;>
          by_cases hbc1 : withinDistance b c d1 = true <;>
            by_cases hab2 : withinDistance a b d2 = true <;>
              by_cases hac2 : withinDistance a c d2 = true <;>
                by_cases hbc2 : withinDistance b c d2 = true <;>
                  simp [hab1, hac1, hbc1, hab2, hac2, hbc2] <;>
                  first
                  | omega
                  | exact absurd
                      (withinDistance_mono a b d1 d2 h0 h12 hab1) hab2
                  | exact absurd
                      (withinDistance_mono a c d1 d2 h0 h12 hac1) hac2
                  | exact absurd
                      (withinDistance_mono b c d1 d2 h0 h12 hbc1) hbc2
    · exfalso
      simp only [List.length_cons] at hlen
      omega
  · have h1 : withinDistance examplePointA examplePointB (1/2000) = true := by
      norm_num [withinDistance, examplePointA, examplePointB, mkArea]
    have h2 : withinDistance examplePointA examplePointC (1/2000) = false := by
      norm_num [withinDistance, examplePointA, examplePointC, mkArea]
    rw [show examplePoints =
      [examplePointA, examplePointB, examplePointC] from rfl,
      clusterAtDistance_length_three]
    simp only [h1, h2]
    norm_num
  · have h1 : withinDistance examplePointA examplePointB 5 = true := by
      norm_num [withinDistance, examplePointA, examplePointB, mkArea]
    have h2 : withinDistance examplePointA examplePointC 5 = false := by
      norm_num [withinDistance, examplePointA, examplePointC, mkArea]
    rw [show examplePoints =
      [examplePointA, examplePointB, examplePointC] from rfl,
      clusterAtDistance_length_three]
    simp [h1, h2]
  · have h1 : withinDistance examplePointA examplePointB 15 = true := by
      norm_num [withinDistance, examplePointA, examplePointB, mkArea]
    have h2 : withinDistance examplePointA examplePointC 15 = true := by
      norm_num [withinDistance, examplePointA, examplePointC, mkArea]
    rw [show examplePoints =
      [examplePointA, examplePointB, examplePointC] from rfl,
      clusterAtDistance_length_three]
    simp [h1, h2]

/-- Witness for the amended C1 on the concrete example points with thresholds
0.0005 and 5.0. -/
theorem clusterCount_monotone_small_and_example_witness :
    examplePoints.length ≤ 3 ∧ (0 : ℚ) ≤ 1/2000 ∧ (1/2000 : ℚ) ≤ 5 ∧
    (clusterAtDistance examplePoints 5 none).length ≤
      (clusterAtDistance examplePoints (1/2000) none).length :=
  ⟨by simp [examplePoints], by norm_num, by norm_num,
   clusterCount_monotone_small_and_example.1 examplePoints none (1/2000) 5
     (by simp [examplePoints]) (by norm_num) (by norm_num)⟩

/-- The sign of the modelled `localeCompare` captures string order. -/
theorem localeCompareInt_nonpos_iff (x y : String) :
    localeCompareInt x y ≤ 0 ↔ x ≤ y := by
  unfold localeCompareInt
  split_ifs with h1 h2
  · simp [le_of_lt h1]
  · simp [le_of_eq h2]
  · simp only [show ¬((1 : Int) ≤ 0) from by omega, false_iff]
    intro hle
    exact (lt_or_eq_of_le hle).elim h1 h2

/-- The comparator used by `tourEntries` sorts ascending exactly in the
spec-prescribed order. -/
theorem tourCompare_nonpos_iff (a b : ResearchArea) :
    tourCompare a b ≤ 0 ↔ tourSpecLe a b := by
  unfold tourCompare tourSpecLe
  by_cases ha : termIndex a.term = -1 <;> by_cases hb : termIndex b.term = -1 <;>
    simp [ha, hb, localeCompareInt_nonpos_iff, sub_nonpos]

/-- The spec order is total. -/
theorem tourSpecLe_total (a b : ResearchArea) :
    tourSpecLe a b ∨ tourSpecLe b a := by
  unfold tourSpecLe
  by_cases ha : termIndex a.term = -1 <;> by_cases hb : termIndex b.term = -1 <;>
    simp [ha, hb]
  · exact le_total _ _
  · exact Int.le_total (termIndex a.term) (termIndex b.term)

/-- The spec order is transitive. -/
theorem tourSpecLe_trans (a b c : ResearchArea) (hab : tourSpecLe a b)
    (hbc : tourSpecLe b c) : tourSpecLe a c := by
  unfold tourSpecLe at hab hbc ⊢
  by_cases ha : termIndex a.term = -1 <;> by_cases hb : termIndex b.term = -1 <;>
    by_cases hc : termIndex c.term = -1 <;> simp [ha, hb, hc] at hab hbc ⊢
  · exact le_trans hab hbc
  · omega

/-- The tour entry list is sorted by the comparator. -/
theorem tourEntries_sorted_compare (l : List ResearchArea) :
    (tourEntries l).Sorted (fun a b => tourCompare a b ≤ 0) := by
  unfold tourEntries
  haveI : IsTotal ResearchArea (fun a b => tourCompare a b ≤ 0) :=
    ⟨fun a b => by
      rcases tourSpecLe_total a b with h | h
      · exact Or.inl ((tourCompare_nonpos_iff a b).mpr h)
      · exact Or.inr ((tourCompare_nonpos_iff b a).mpr h)⟩
  haveI : IsTrans ResearchArea (fun a b => tourCompare a b ≤ 0) :=
    ⟨fun a b c hab hbc => (tourCompare_nonpos_iff a c).mpr
      (tourSpecLe_trans a b c ((tourCompare_nonpos_iff a b).mp hab)
        ((tourCompare_nonpos_iff b c).mp hbc))⟩
  exact List.sorted_insertionSort _ l

/-- C6: `tourEntries` is a permutation of the loaded points, pairwise ordered
by the spec order (lexicon terms by recency position, lexicon terms before
unknown terms, unknown terms alphabetically); on the fixture points
`A(term="Fall 24")`, `B(term="Spring 24")`, `C(term="Summer 25")` the computed
order is `[C, A, B]`. -/
theorem tourEntries_ordering :
    tourEntries [tourPointA, tourPointB, tourPointC] =
      [tourPointC, tourPointA, tourPointB] ∧
    ∀ researchAreas : List ResearchArea,
      (tourEntries researchAreas).Perm researchAreas ∧
      (tourEntries researchAreas).Sorted tourSpecLe := by
  refine ⟨by decide, fun l => ⟨List.perm_insertionSort _ l, ?_⟩⟩
  exact (tourEntries_sorted_compare l).imp
    (fun hab => (tourCompare_nonpos_iff _ _).mp hab)

/-- Any fuel at least the length of the remaining list produces the same
clusters, so `clusterAtDistance`'s choice of `areas.length` is canonical and
the `fuel = 0` branch of `clusterLoop` is unreachable from it. -/
theorem clusterLoop_fuel_irrelevant (d : ℚ) (sel : Option ResearchArea) :
    ∀ (fuel1 fuel2 : ℕ) (l : List ResearchArea) (n : ℕ) (f : Bool),
      l.length ≤ fuel1 → l.length ≤ fuel2 →
      clusterLoop d sel fuel1 l n f = clusterLoop d sel fuel2 l n f := by
  intro fuel1
  induction fuel1 with
  | zero =>
    intro fuel2 l n f h1 h2
    cases l with
    | nil => cases fuel2 <;> simp [clusterLoop]
    | cons a rest => simp at h1
  | succ m ih =>
    intro fuel2 l n f h1 h2
    cases l with
    | nil => cases fuel2 <;> simp [clusterLoop]
    | cons a rest =>
      cases fuel2 with
      | zero => simp at h2
      | succ k =>
        simp only [clusterLoop]
        have hlen := List.length_filter_le
          (fun b => !(withinDistance a b d)) rest
        simp only [List.length_cons] at h1 h2
        congr 1
        exact ih k _ (n + 1) _ (by omega) (by omega)
